import Mathlib

/-!
Verification of the session task orchestrator in `bot.py` (`LikerManager`):
the token-acquisition stage (`_fetch_single_jwt_token`,
`_fetch_jwt_concurrently_superbot_style`), the publish stage and dispatch
stage of `_run_task_logic`, and the scheduler controls (`start_liker_task`,
`stop_liker_task`).

The embedding is shallow: Python dictionaries decoded from JSON become the
`Json` inductive type, HTTP interactions become explicit outcome values
supplied by the environment, and side effects (Telegram messages, sleeps,
GitHub writes, like requests) become an explicit event trace.
-/

set_option maxRecDepth 10000

namespace Bot

/-- A JSON value as decoded by Python (`response.json()`, parsed config). -/
inductive Json where
  | null : Json
  | bool : Bool → Json
  | num : Int → Json
  | str : String → Json
  | arr : List Json → Json
  | obj : List (String × Json) → Json
deriving Repr

/-- Python truthiness of a decoded JSON value (`if x:`). -/
def Json.truthy : Json → Bool
  | .null => false
  | .bool b => b
  | .num n => n != 0
  | .str s => s ≠ ""
  | .arr xs => !xs.isEmpty
  | .obj fs => !fs.isEmpty

/-- Field access on a decoded JSON object (`d['k']` / `d.get('k')`);
`none` both when the value is not a dict and when the key is absent. -/
def Json.getField : Json → String → Option Json
  | .obj fs, k => fs.lookup k
  | _, _ => none

/-- Python truthiness of an optional value (`None` is falsy). -/
def optTruthy : Option Json → Bool
  | none => false
  | some j => j.truthy

/-- A guest account entry, `{"uid": ..., "password": ...}`; `none` models a
missing key (`acc.get(...) is None`). -/
structure Account where
  uid : Option String
  password : Option String
deriving Repr, DecidableEq

/-- Truthiness of `acc.get(k)` for a string-valued field. -/
def fieldTruthy : Option String → Bool
  | none => false
  | some s => s ≠ ""

/-- The check `acc.get("uid") and acc.get("password")` — the filter used both by
`_fetch_single_jwt_token` (negated) and by the submission loop of
`_fetch_jwt_concurrently_superbot_style`. -/
def Account.bothFields (a : Account) : Bool :=
  fieldTruthy a.uid && fieldTruthy a.password

/-- Outcome of one `requests.get` call as seen by the surrounding `try`:
either a response arrived (status code plus the result of `response.json()`,
which is `.error msg` when the body is not JSON, plus the raw `response.text`),
or one of the exception shapes distinguished by `_fetch_single_jwt_token`. -/
inductive FetchOutcome where
  | response : Nat → Except String Json → String → FetchOutcome
  | timeout : String → FetchOutcome
  | connReset : FetchOutcome
  | connError : String → FetchOutcome
  | otherError : String → FetchOutcome
deriving Repr

/-- Hexadecimal digit characters, lower case (as produced by Python). -/
def hexDig (n : Nat) : Char :=
  (("0123456789abcdef".data).getD n '0')

mutual
/-- Python `str(...)` of a decoded JSON value (`repr` of dicts/lists/strings,
`None`/`True`/`False` for the atoms), as used in the
`"Token key/format invalid: ..."` snippet. -/
def Json.pyRepr : Json → String
  | .null => "None"
  | .bool true => "True"
  | .bool false => "False"
  | .num n => toString n
  | .str s => "\x27" ++ s ++ "\x27"
  | .arr xs => "[" ++ pyReprItems xs ++ "]"
  | .obj fs => "\x7b" ++ pyReprFields fs ++ "\x7d"

/-- Comma-separated `str(...)` of list items. -/
def pyReprItems : List Json → String
  | [] => ""
  | [x] => x.pyRepr
  | x :: y :: xs => x.pyRepr ++ ", " ++ pyReprItems (y :: xs)

/-- Comma-separated `str(...)` of dict entries. -/
def pyReprFields : List (String × Json) → String
  | [] => ""
  | [(k, v)] => "\x27" ++ k ++ "\x27: " ++ v.pyRepr
  | (k, v) :: e :: fs => "\x27" ++ k ++ "\x27: " ++ v.pyRepr ++ ", " ++ pyReprFields (e :: fs)
end

/-- The `token_str` extraction of `_fetch_single_jwt_token` on a 200 body:
a dict with a `token` key, or a non-empty list whose first element is a
dict with a `token` key; `none` for every other shape. -/
def tokenStrOf : Json → Option Json
  | .obj fs => fs.lookup "token"
  | .arr (x :: _) =>
    match x with
    | .obj fs => fs.lookup "token"
    | _ => none
  | _ => none

/-- Model of `_fetch_single_jwt_token(account, api_url)`: returns
`(token dict or None, error reason or None)`.  The HTTP outcome of the single
`requests.get(full_url, timeout=60)` is supplied as `out`. -/
def fetch_single_jwt_token (account : Account) (out : FetchOutcome) :
    Option Json × Option String :=
  if ¬ account.bothFields then
    (none, some "Missing uid or password")
  else
    match out with
    | .response status body _text =>
      if status = 200 then
        match body with
        | .error msg => (none, some ("General Error: " ++ msg))
        | .ok token_data =>
          match tokenStrOf token_data with
          | some token_str =>
            if token_str.truthy then
              (some (.obj [("token", token_str)]), none)
            else
              (none, some ("Token key/format invalid: " ++ (Json.pyRepr token_data).take 100))
          | none =>
            (none, some ("Token key/format invalid: " ++ (Json.pyRepr token_data).take 100))
      else
        (none, some ("API failed (Status: " ++ toString status ++ ")"))
    | .timeout _msg => (none, some "Timeout (60s)")
    | .connReset => (none, some "Connection Reset by Server")
    | .connError msg => (none, some ("Connection Error: " ++ msg))
    | .otherError msg => (none, some ("General Error: " ++ msg))

/-- Result of `_fetch_jwt_concurrently_superbot_style`. -/
structure AcquireResult where
  tokens_list : List Json
  success_count : Nat
  fail_count : Nat
  total_to_process : Nat
deriving Repr

/-- The `as_completed` result loop of `_fetch_jwt_concurrently_superbot_style`:
`result_dict, error_reason = future.result(); if result_dict: append + count
success else count failure`, processed in future-completion order. -/
def processResults (fetch : Account → Option Json × Option String) :
    List Account → List Json × Nat × Nat
  | [] => ([], 0, 0)
  | a :: rest =>
    let prev := processResults fetch rest
    match (fetch a).1 with
    | some result_dict =>
      if result_dict.truthy then (result_dict :: prev.1, prev.2.1 + 1, prev.2.2)
      else (prev.1, prev.2.1, prev.2.2 + 1)
    | none => (prev.1, prev.2.1, prev.2.2 + 1)

/-- Model of `_fetch_jwt_concurrently_superbot_style(chat_id, accounts, api_url)`:
submits one future per account whose `uid` and `password` are both truthy
(incrementing `total_to_process` per submission), then tallies results in
future-completion order.  `fetch` gives each submitted account's
`_fetch_single_jwt_token` result; `completedOrder` is the completion order of
the futures (a permutation of the submitted accounts). -/
def fetch_jwt_concurrently (fetch : Account → Option Json × Option String)
    (accounts completedOrder : List Account) : AcquireResult :=
  let submitted := accounts.filter Account.bothFields
  let collected := processResults fetch completedOrder
  ⟨collected.1, collected.2.1, collected.2.2, submitted.length⟩

/-- Outcome of one `requests.get(like_api_url, params=..., timeout=60)` call:
a response (status code, `response.json()` result, `response.text`) or a
raised exception (timeout, transport error, ...) with its text. -/
inductive ReqOutcome where
  | response : Nat → Except String Json → String → ReqOutcome
  | exn : String → ReqOutcome
deriving Repr

/-- The sentinel error message that triggers the single dispatch retry. -/
def sentinelError : String := "Failed to retrieve initial player info."

/-- The retry condition of Step 3 of `_run_task_logic`: the body parses as
JSON (`response.json()` does not raise), the status is not 200, and
`error_data.get("error")` equals the sentinel message.  When the body is not
a JSON object, `.get` raises and the `except Exception: pass` suppresses the
retry. -/
def retryTrigger : ReqOutcome → Bool
  | .response status (.ok j) _ =>
    status != 200 &&
      (match j.getField "error" with
       | some (.str s) => s = sentinelError
       | _ => false)
  | _ => false

/-- An observable side effect of one pipeline run. -/
inductive Event where
  | send : String → Event
  | editMsg : String → Event
  | sleep : Nat → Event
  | likeRequest : String → Event
  | githubRead : Event
  | githubCreate : String → Event
  | githubUpdate : String → String → Event
deriving Repr, DecidableEq

/-- The warning sent before the dispatch retry. -/
def retryWarnText (uid : String) : String :=
  "⚠️ Error for UID " ++ uid ++ ": \x27Failed to retrieve...\x27. Waiting 2 minutes to retry."

/-- One iteration of the Step-3 like loop of `_run_task_logic` for target
`uid`: everything inside the per-target `try`/`except`.  `first` is the
outcome of the initial request; `retry` is the outcome of the reissued
request, consulted only when the retry triggers.  Returns the emitted events,
whether the target counted as a like success, and the recorded
`response_text`.  When the reissued request raises, the inner
`except Exception: pass` swallows it and `response` stays the first
response. -/
def dispatchTarget (uid : String) (first retry : ReqOutcome) :
    List Event × Bool × String :=
  match first with
  | .exn e => ([.likeRequest uid], false, "Request Error: " ++ e)
  | .response status body text =>
    if retryTrigger (.response status body text) then
      match retry with
      | .exn _ =>
        ([.likeRequest uid, .send (retryWarnText uid), .sleep 120, .likeRequest uid],
         status == 200, text)
      | .response status2 _body2 text2 =>
        ([.likeRequest uid, .send (retryWarnText uid), .sleep 120, .likeRequest uid],
         status2 == 200, text2)
    else
      ([.likeRequest uid], status == 200, text)

/-- The line appended to `all_like_responses` for one target. -/
def responseLine (uid text : String) : String :=
  "<b>UID " ++ uid ++ ":</b>\n<pre>" ++ text ++ "</pre>"

/-- The Step-3 loop over `target_uids`: per-target dispatch, response-line
collection and the 1-second pacing sleep after each target.  Returns the
events, `like_success`, `like_fail` and `all_like_responses`. -/
def dispatchTargets (first retry : String → ReqOutcome) :
    List String → List Event × Nat × Nat × List String
  | [] => ([], 0, 0, [])
  | uid :: rest =>
    let one := dispatchTarget uid (first uid) (retry uid)
    let others := dispatchTargets first retry rest
    (one.1 ++ [Event.sleep 1] ++ others.1,
     (if one.2.1 then others.2.1 + 1 else others.2.1),
     (if one.2.1 then others.2.2.1 else others.2.2.1 + 1),
     responseLine uid one.2.2 :: others.2.2.2)

/-- Number of like-API requests issued in a list of events. -/
def likeRequestCount (evs : List Event) : Nat :=
  evs.countP (fun e => match e with | .likeRequest _ => true | _ => false)

/-- Hexadecimal value of a lower-case hex digit character. -/
def hexVal (c : Char) : Nat :=
  if c = '0' then 0 else if c = '1' then 1 else if c = '2' then 2
  else if c = '3' then 3 else if c = '4' then 4 else if c = '5' then 5
  else if c = '6' then 6 else if c = '7' then 7 else if c = '8' then 8
  else if c = '9' then 9 else if c = 'a' then 10 else if c = 'b' then 11
  else if c = 'c' then 12 else if c = 'd' then 13 else if c = 'e' then 14
  else if c = 'f' then 15 else 0

/-- JSON string escaping of one character, as `json.dumps` performs it
(with non-ASCII characters left verbatim): `"` and `\` are backslash-escaped,
the named control characters use their short escapes, the remaining control
characters use `\u00XX`, and every other character stands for itself. -/
def encChar (c : Char) : List Char :=
  if c = '"' then ['\\', '"']
  else if c = '\\' then ['\\', '\\']
  else if c = '\n' then ['\\', 'n']
  else if c = '\r' then ['\\', 'r']
  else if c = '\t' then ['\\', 't']
  else if c = '\x08' then ['\\', 'b']
  else if c = '\x0c' then ['\\', 'f']
  else if c.toNat < 32 then
    ['\\', 'u', '0', '0', hexDig (c.toNat / 16), hexDig (c.toNat % 16)]
  else [c]

/-- JSON string escaping of a character sequence. -/
def escL : List Char → List Char
  | [] => []
  | c :: cs => encChar c ++ escL cs

/-- Indentation of `n` spaces. -/
def pad (n : Nat) : List Char := List.replicate n ' '

mutual
/-- Model of `json.dumps(value, indent=4)` (with non-ASCII characters left verbatim)
at nesting indentation `ind`, as the character sequence of the produced
text.  Used by Step 2 of `_run_task_logic` via
`new_content = json.dumps(token_dicts, indent=4)`. -/
def dumpsL : Json → Nat → List Char
  | .null, _ => ['n', 'u', 'l', 'l']
  | .bool true, _ => ['t', 'r', 'u', 'e']
  | .bool false, _ => ['f', 'a', 'l', 's', 'e']
  | .num n, _ => (toString n).data
  | .str s, _ => '"' :: (escL s.data ++ ['"'])
  | .arr [], _ => ['[', ']']
  | .arr (x :: xs), ind =>
    '[' :: '\n' :: (dumpsItems (x :: xs) (ind + 4) ++ '\n' :: (pad ind ++ [']']))
  | .obj [], _ => ['\x7b', '\x7d']
  | .obj (f :: fs), ind =>
    '\x7b' :: '\n' :: (dumpsFields (f :: fs) (ind + 4) ++ '\n' :: (pad ind ++ ['\x7d']))

/-- The comma-and-newline separated items of a pretty-printed JSON array. -/
def dumpsItems : List Json → Nat → List Char
  | [], _ => []
  | [x], ind => pad ind ++ dumpsL x ind
  | x :: y :: xs, ind =>
    pad ind ++ dumpsL x ind ++ ',' :: '\n' :: dumpsItems (y :: xs) ind

/-- The comma-and-newline separated entries of a pretty-printed JSON object. -/
def dumpsFields : List (String × Json) → Nat → List Char
  | [], _ => []
  | [(k, v)], ind =>
    pad ind ++ '"' :: (escL k.data ++ '"' :: ':' :: ' ' :: dumpsL v ind)
  | (k, v) :: e :: fs, ind =>
    pad ind ++ '"' :: (escL k.data ++ '"' :: ':' :: ' ' :: dumpsL v ind)
      ++ ',' :: '\n' :: dumpsFields (e :: fs) ind
end

/-- Model of `json.dumps(value, indent=4)` as a string. -/
def dumps (j : Json) : String := String.mk (dumpsL j 0)

/-- The token-set JSON value published by Step 2: a JSON array of
`{"token": <string>}` objects (one per acquired token). -/
def tokenArr (ts : List String) : Json :=
  .arr (ts.map fun s => .obj [("token", .str s)])

/-- Serialization of a token set as written to the GitHub file. -/
def dumpsTokens (ts : List String) : String := dumps (tokenArr ts)

/-- Greedy decoder of one escaped-character unit of a serialized JSON string:
`none` at the end of input and at an unescaped `"` (the terminator).  Inverse
of `encChar`, used to prove the serialization injective. -/
def decodeEsc : List Char → Option (Char × List Char)
  | [] => none
  | c :: rest =>
    if c = '"' then none
    else if c = '\\' then
      match rest with
      | [] => none
      | e :: rest2 =>
        if e = '"' then some ('"', rest2)
        else if e = '\\' then some ('\\', rest2)
        else if e = 'n' then some ('\n', rest2)
        else if e = 'r' then some ('\r', rest2)
        else if e = 't' then some ('\t', rest2)
        else if e = 'b' then some ('\x08', rest2)
        else if e = 'f' then some ('\x0c', rest2)
        else if e = 'u' then
          match rest2 with
          | h1 :: h2 :: h3 :: h4 :: rest3 =>
            some (Char.ofNat (hexVal h1 * 4096 + hexVal h2 * 256
              + hexVal h3 * 16 + hexVal h4), rest3)
          | _ => none
        else none
    else some (c, rest)

/-- Leading text of one serialized token object (indentation 4), up to and
including the opening quote of the token string. -/
def blockHead : List Char := "    \x7b\n        \"token\": \"".data

/-- Trailing text of one serialized token object, after the closing quote of
the token string. -/
def blockTail : List Char := "\n    \x7d".data

/-- The serialized item list of a token array at indentation 4, written with
the escaped token strings exposed. -/
def tokenItems : List (List Char) → List Char
  | [] => []
  | [s] => blockHead ++ (escL s ++ '"' :: blockTail)
  | s :: t :: rest =>
    blockHead ++ (escL s ++ '"' :: (blockTail ++ ',' :: '\n' :: tokenItems (t :: rest)))

/-- The continuation after one token block: empty for the last block, the
item separator plus the remaining blocks otherwise. -/
def tailOf : List (List Char) → List Char
  | [] => []
  | t :: rest => ',' :: '\n' :: tokenItems (t :: rest)

/-- The GitHub file as read by `repo.get_contents`: decoded content plus the
version identifier (`file_obj.sha`). -/
structure RemoteFile where
  content : String
  sha : String
deriving Repr, DecidableEq

/-- The `github_status_message` values of Step 2 of `_run_task_logic`
(`"Created"` / `"Updated"` / `"Unchanged"` / the initial `"Fail"`). -/
inductive GithubStatus where
  | created
  | updated
  | unchanged
  | failed
deriving Repr, DecidableEq

/-- Step 2 of `_run_task_logic` run against a well-behaved remote store whose
current state is `store` (`none` when `get_contents` raises
`UnknownObjectException`): read the current content, then create when absent,
skip the write when byte-equal, or issue a version-checked update when
different.  Returns the status, the next store state (`fresh_sha` is the
version assigned by the store to a newly written file) and the store events
issued. -/
def publish (store : Option RemoteFile) (new_content fresh_sha : String) :
    GithubStatus × Option RemoteFile × List Event :=
  match store with
  | some file_obj =>
    if file_obj.content ≠ new_content then
      (.updated, some ⟨new_content, fresh_sha⟩,
       [.githubRead, .githubUpdate new_content file_obj.sha])
    else (.unchanged, some file_obj, [.githubRead])
  | none =>
    (.created, some ⟨new_content, fresh_sha⟩, [.githubRead, .githubCreate new_content])

/-- The update `failed_reasons[reason] = failed_reasons.get(reason, 0) + 1`, keeping
Python dict insertion order (`none` models a `None` reason key). -/
def bumpReason (reason : Option String) :
    List (Option String × Nat) → List (Option String × Nat)
  | [] => [(reason, 1)]
  | (r, n) :: rest =>
    if r = reason then (r, n + 1) :: rest else (r, n) :: bumpReason reason rest

/-- The `failed_reasons` histogram accumulated over the completed fetches. -/
def failedReasonsFrom (fetch : Account → Option Json × Option String)
    (acc : List (Option String × Nat)) : List Account → List (Option String × Nat)
  | [] => acc
  | a :: rest =>
    match fetch a with
    | (some d, _r) =>
      if d.truthy then failedReasonsFrom fetch acc rest
      else failedReasonsFrom fetch (bumpReason _r acc) rest
    | (none, _r) => failedReasonsFrom fetch (bumpReason _r acc) rest

/-- Python `str` of a reason key (`None` for a missing reason). -/
def optReasonText : Option String → String
  | none => "None"
  | some r => r

/-- The `"⚠️ JWT Generation Failures:"` summary text. -/
def failSummaryText (hist : List (Option String × Nat)) : String :=
  "⚠️ JWT Generation Failures:\n"
    ++ String.intercalate "\n"
        (hist.map fun rc => "- " ++ optReasonText rc.1 ++ ": " ++ toString rc.2 ++ " times")

/-- The notification events emitted by
`_fetch_jwt_concurrently_superbot_style`: the initial progress message, a
progress edit every 5 completions and at the final completion, the completion
edit, and the failure summary when any fetch failed. -/
def acquireStageEvents (fetch : Account → Option Json × Option String)
    (accounts completedOrder : List Account) : List Event :=
  let total := (accounts.filter Account.bothFields).length
  [.send ("⏳ Starting JWT generation for " ++ toString accounts.length ++ " accounts...")]
  ++ (List.range completedOrder.length).filterMap (fun k =>
      if (k + 1) % 5 = 0 ∨ k + 1 = total then
        some (.editMsg ("⏳ Processed " ++ toString (k + 1) ++ "/" ++ toString total
          ++ " JWT requests..."))
      else none)
  ++ [.editMsg ("✅ JWT Processing Complete for " ++ toString total ++ " accounts.")]
  ++ (if (processResults fetch completedOrder).2.2 > 0 then
        [.send (failSummaryText (failedReasonsFrom fetch [] completedOrder))]
      else [])

/-- Result of the `repo.get_contents(file_path)` read in Step 2 of
`_run_task_logic`: the current file, `UnknownObjectException` (file absent),
or any other exception raised by `Github(...)`/`get_repo`/`get_contents`
(bad credentials, network failure, missing config key), with `str(e)`. -/
inductive GithubRead where
  | found : RemoteFile → GithubRead
  | missing : GithubRead
  | readRaise : String → GithubRead
deriving Repr

/-- Behaviour of the GitHub store during one Step-2 block: the read result
and the results of a create or update call were one issued (`.error e` = the
call raised with `str(e)`). -/
structure GithubEnv where
  read : GithubRead
  createResult : Except String Unit
  updateResult : Except String Unit

/-- The Step-2 GitHub block of `_run_task_logic`: returns the store events
issued, the final `github_status_message` value, and `some e` when the block
raised (the `except` branch then reports the error and aborts the run). -/
def github_update_step (env : GithubEnv) (new_content : String) :
    List Event × String × Option String :=
  match env.read with
  | .readRaise e => ([], "Fail", some e)
  | .missing =>
    match env.createResult with
    | .ok _ => ([.githubRead, .githubCreate new_content], "Created", none)
    | .error e => ([.githubRead, .githubCreate new_content], "Fail", some e)
  | .found file_obj =>
    if file_obj.content ≠ new_content then
      match env.updateResult with
      | .ok _ => ([.githubRead, .githubUpdate new_content file_obj.sha], "Updated", none)
      | .error e => ([.githubRead, .githubUpdate new_content file_obj.sha], "Fail", some e)
    else ([.githubRead], "Unchanged", none)

/-- The per-session configuration as read by `_run_task_logic`.  Fields read
with `config[...]` are `Option`s: `none` models a missing key, whose access
raises `KeyError` and lands in the outermost `except` branch.  The GitHub
credentials are read only inside the Step-2 `try`, so their failures are
part of `GithubEnv.read`. -/
structure Config where
  guest_accounts : List Account
  jwt_api : Option String
  like_api : Option String
  target_uids : List String

/-- The environment of one pipeline run: the per-account fetch results, the
completion order of the token futures, the GitHub store behaviour, and the
first/retry like-request outcomes per target. -/
structure PipelineEnv where
  fetch : Account → Option Json × Option String
  completedOrder : List Account
  github : GithubEnv
  likeFirst : String → ReqOutcome
  likeRetry : String → ReqOutcome

/-- Which way one `_run_task_logic` run terminated. -/
inductive PathTaken where
  | emptyConfig
  | noCreds
  | noTokens
  | publishFailed
  | unexpected
  | completed
deriving Repr, DecidableEq

/-- The `"❌ Task Failed Unexpectedly!"` report of the outermost `except`. -/
def unexpectedFailureText (e : String) : String :=
  "❌ <b>Task Failed Unexpectedly!</b>\n<pre>" ++ e ++ "</pre>"

/-- The Step-3 response-report chunking: accumulate lines until a line would
push the message past 4000 characters, flushing as needed, then flush the
remainder. -/
def chunkSends : String → List String → List Event
  | current, [] => if current ≠ "" then [.send current] else []
  | current, line :: rest =>
    if current.length + line.length > 4000 then .send current :: chunkSends line rest
    else chunkSends (current ++ "\n" ++ line) rest

/-- Model of `_run_task_logic(chat_id)`: the full pipeline over one configuration
(`none` models the `if not config: return` guard on an empty settings entry)
and one environment, returning the emitted event trace and the path taken. -/
def run_task_logic (config : Option Config) (env : PipelineEnv) :
    List Event × PathTaken :=
  match config with
  | none => ([], .emptyConfig)
  | some cfg =>
    let step1 : List Event := [.send "<b>Task Step 1/3: Generating JWTs...</b>"]
    if cfg.guest_accounts.isEmpty then
      (step1 ++ [.send "❌ Guest Accounts not set. Task cancelled."], .noCreds)
    else
      match cfg.jwt_api with
      | none => (step1 ++ [.send (unexpectedFailureText "\x27jwt_api\x27")], .unexpected)
      | some _ =>
        let acq := fetch_jwt_concurrently env.fetch cfg.guest_accounts env.completedOrder
        let ev1 := step1 ++ acquireStageEvents env.fetch cfg.guest_accounts env.completedOrder
          ++ [.send ("📊 <b>Step 1/3 Result:</b>\nProcessed: " ++ toString acq.total_to_process
              ++ ", Generated: " ++ toString acq.success_count
              ++ ", Failed: " ++ toString acq.fail_count)]
        if acq.tokens_list.isEmpty then
          (ev1 ++ [.send "❌ No tokens generated. Task cancelled."], .noTokens)
        else
          let new_content := dumps (.arr acq.tokens_list)
          let gh := github_update_step env.github new_content
          let ev2 := ev1 ++ [.send "<b>Task Step 2/3: Updating GitHub...</b>"] ++ gh.1
          match gh.2.2 with
          | some e =>
            (ev2 ++ [.send ("❌ <b>Step 2/3 Error:</b> GitHub update failed: " ++ e)],
             .publishFailed)
          | none =>
            let ev3 := ev2
              ++ [.send ("✅ <b>Step 2/3 Complete:</b> GitHub status: " ++ gh.2.1 ++ ".")]
              ++ [.send "ℹ️ Waiting 60 seconds for GitHub to update before sending likes..."]
              ++ [.sleep 60]
              ++ [.send "<b>Task Step 3/3: Sending Likes...</b>"]
            match cfg.like_api with
            | none => (ev3 ++ [.send (unexpectedFailureText "\x27like_api\x27")], .unexpected)
            | some _ =>
              let disp := dispatchTargets env.likeFirst env.likeRetry cfg.target_uids
              let ev4 := ev3
                ++ (if cfg.target_uids.isEmpty then
                      [.send "⚠️ No Target UIDs set. Skipping likes."]
                    else disp.1)
                ++ (if disp.2.2.2.isEmpty then []
                    else .send "📊 <b>Step 3/3 Results (Exact Responses):</b>"
                      :: chunkSends "" disp.2.2.2)
              (ev4 ++ [.send ("🎉 <b>Task Complete!</b>\nJWTs: " ++ toString acq.success_count
                  ++ "/" ++ toString acq.total_to_process ++ " ok\nGitHub: " ++ gh.2.1
                  ++ "\nLikes: " ++ toString disp.2.1 ++ " success, "
                  ++ toString disp.2.2.1 ++ " fail")], .completed)

/-- A concrete pipeline environment: every fetch times out, the GitHub file
is absent and writes succeed, every like request raises. -/
def envW : PipelineEnv :=
  ⟨fun _ => (none, some "Timeout (60s)"), [⟨some "u", some "p"⟩],
   ⟨.missing, .ok (), .ok ()⟩, fun _ => .exn "t", fun _ => .exn "t"⟩

/-- The scheduler registry: the chat ids holding an entry in `self.threads`
(each entry is a Thread plus its stop Event — the SessionRuntime), and the
log of `thread.start()` calls issued so far, in order. -/
structure SchedulerState where
  threads : List Nat
  spawned : List Nat
deriving Repr, DecidableEq

/-- How `start_liker_task` returned. -/
inductive StartResult where
  | configIncomplete
  | alreadyRunning
  | started
deriving Repr, DecidableEq

/-- Model of `start_liker_task(message)`: refuse when the Liker settings are
incomplete; refuse as a no-op when `chat_id in self.threads`; otherwise
record the runtime and spawn the background thread. -/
def start_liker_task (configComplete : Nat → Bool) (s : SchedulerState) (chat_id : Nat) :
    SchedulerState × StartResult :=
  if ¬ configComplete chat_id then (s, .configIncomplete)
  else if chat_id ∈ s.threads then (s, .alreadyRunning)
  else ({ threads := chat_id :: s.threads, spawned := s.spawned ++ [chat_id] }, .started)

/-- Model of `stop_liker_task(message)`: a no-op when not running, otherwise set the
stop event and drop the runtime entry (`self.threads.pop(chat_id, None)`).
Returns whether a runtime was removed. -/
def stop_liker_task (s : SchedulerState) (chat_id : Nat) : SchedulerState × Bool :=
  if chat_id ∈ s.threads then
    ({ s with threads := s.threads.filter (fun c => c != chat_id) }, true)
  else (s, false)

/-- One scheduler control operation. -/
inductive SchedOp where
  | start : Nat → SchedOp
  | stop : Nat → SchedOp
deriving Repr, DecidableEq

/-- A sequence of scheduler control operations applied in order. -/
def applySchedOps (configComplete : Nat → Bool) :
    SchedulerState → List SchedOp → SchedulerState
  | s, [] => s
  | s, .start c :: rest =>
    applySchedOps configComplete (start_liker_task configComplete s c).1 rest
  | s, .stop c :: rest =>
    applySchedOps configComplete (stop_liker_task s c).1 rest

lemma processResults_counts (fetch : Account → Option Json × Option String) :
    ∀ l : List Account,
      (processResults fetch l).2.1 + (processResults fetch l).2.2 = l.length := by
  intro l
  induction l with
  | nil => rfl
  | cons a rest ih =>
    simp only [processResults]
    cases h : (fetch a).1 with
    | none =>
      simp only [h, List.length_cons]
      omega
    | some d =>
      by_cases ht : d.truthy <;> simp only [h, ht, List.length_cons, if_true, if_false,
        Bool.false_eq_true, ite_false, ite_true] <;> omega

/-- C3: for every credential list, `total_to_process` equals the number of
credentials having both the `uid` and the `password` field non-empty, and once
all concurrently fetched results are tallied,
`success_count + fail_count = total_to_process`. -/
theorem acquire_counts (fetch : Account → Option Json × Option String)
    (accounts completedOrder : List Account)
    (h : completedOrder.Perm (accounts.filter Account.bothFields)) :
    (fetch_jwt_concurrently fetch accounts completedOrder).total_to_process
        = accounts.countP Account.bothFields
    ∧ (fetch_jwt_concurrently fetch accounts completedOrder).success_count
        + (fetch_jwt_concurrently fetch accounts completedOrder).fail_count
        = (fetch_jwt_concurrently fetch accounts completedOrder).total_to_process := by
  have h1 := processResults_counts fetch completedOrder
  have h2 := h.length_eq
  have h3 : (accounts.filter Account.bothFields).length
      = accounts.countP Account.bothFields := by
    simp [List.countP_eq_length_filter]
  constructor
  · simpa [fetch_jwt_concurrently] using h3
  · simp only [fetch_jwt_concurrently]
    omega

/-- Witness for C3 at a concrete credential list (one complete account, one
missing its password, one with an empty uid). -/
theorem acquire_counts_witness :
    (fetch_jwt_concurrently (fun a => fetch_single_jwt_token a .connReset)
        [⟨some "u1", some "p1"⟩, ⟨some "u2", none⟩, ⟨some "", some "p3"⟩]
        [⟨some "u1", some "p1"⟩]).total_to_process = 1
    ∧ (fetch_jwt_concurrently (fun a => fetch_single_jwt_token a .connReset)
        [⟨some "u1", some "p1"⟩, ⟨some "u2", none⟩, ⟨some "", some "p3"⟩]
        [⟨some "u1", some "p1"⟩]).success_count
      + (fetch_jwt_concurrently (fun a => fetch_single_jwt_token a .connReset)
        [⟨some "u1", some "p1"⟩, ⟨some "u2", none⟩, ⟨some "", some "p3"⟩]
        [⟨some "u1", some "p1"⟩]).fail_count = 1 := by
  have h := acquire_counts (fun a => fetch_single_jwt_token a .connReset)
    [⟨some "u1", some "p1"⟩, ⟨some "u2", none⟩, ⟨some "", some "p3"⟩]
    [⟨some "u1", some "p1"⟩] (by decide)
  exact ⟨h.1.trans (by decide), h.2.trans (h.1.trans (by decide))⟩

/-- C6 (counterexample): on a request timeout the recorded failure reason is
the string `"Timeout (60s)"`, not exactly `"Timeout"` as claimed. -/
theorem timeout_reason_counterexample :
    fetch_single_jwt_token ⟨some "uid1", some "pw1"⟩ (.timeout "t") =
      (none, some "Timeout (60s)")
    ∧ "Timeout (60s)" ≠ "Timeout" := ⟨rfl, by decide⟩

/-- C6 (amended): for every fetch with a complete credential, a timeout is
recorded with reason exactly `"Timeout (60s)"`, a connection reset with reason
exactly `"Connection Reset by Server"`, and the latter is distinct from the
reason recorded for every generic connection error. -/
theorem transport_failure_reasons (a : Account) (m : String) (h : a.bothFields = true) :
    fetch_single_jwt_token a (.timeout m) = (none, some "Timeout (60s)")
    ∧ fetch_single_jwt_token a .connReset = (none, some "Connection Reset by Server")
    ∧ fetch_single_jwt_token a (.connError m) = (none, some ("Connection Error: " ++ m))
    ∧ "Connection Reset by Server" ≠ "Connection Error: " ++ m := by
  refine ⟨by simp [fetch_single_jwt_token, h], by simp [fetch_single_jwt_token, h],
    by simp [fetch_single_jwt_token, h], ?_⟩
  intro hc
  have hd := congrArg String.data hc
  rw [String.data_append] at hd
  have h12 := congrArg (fun l => l.getD 11 ' ') hd
  simp only at h12
  rw [List.getD_append _ _ _ _ (by decide)] at h12
  exact absurd h12 (by decide)

/-- Witness for C6's amended statement at a concrete account and error text. -/
theorem transport_failure_reasons_witness :
    fetch_single_jwt_token ⟨some "u", some "p"⟩ (.timeout "boom") = (none, some "Timeout (60s)")
    ∧ fetch_single_jwt_token ⟨some "u", some "p"⟩ .connReset
        = (none, some "Connection Reset by Server")
    ∧ fetch_single_jwt_token ⟨some "u", some "p"⟩ (.connError "boom")
        = (none, some ("Connection Error: " ++ "boom"))
    ∧ "Connection Reset by Server" ≠ "Connection Error: " ++ "boom" :=
  transport_failure_reasons ⟨some "u", some "p"⟩ "boom" (by decide)

/-- C8 (counterexample): a 200 response whose body is the JSON object
`{"token": ""}` is in the claimed success shape (an object with a `token`
field), yet the fetch is classified as a failure with the
`"Token key/format invalid"` reason rather than producing a token. -/
theorem token_shape_counterexample :
    (Json.obj [("token", Json.str "")]).getField "token" = some (.str "")
    ∧ fetch_single_jwt_token ⟨some "u1", some "p1"⟩
        (.response 200 (.ok (.obj [("token", .str "")])) "")
      = (none, some "Token key/format invalid: \x7b\x27token\x27: \x27\x27\x7d") :=
  ⟨rfl, rfl⟩

/-- C8 (amended): for a fetch with a complete credential, a 200 response whose
JSON body is an object with a `token` field, or a non-empty array whose first
element is an object with a `token` field, succeeds with one token if and only
if that `token` value is truthy; every other JSON body shape (including a
falsy `token` value) yields reason `"Token key/format invalid"` with a
100-character body snippet, and every non-200 status yields reason
`"API failed (Status: <code>)"`. -/
theorem fetch_200_classification (a : Account) (h : a.bothFields = true)
    (status : Nat) (j : Json) (t : String) :
    (∀ v, tokenStrOf j = some v → v.truthy = true →
        fetch_single_jwt_token a (.response 200 (.ok j) t) = (some (.obj [("token", v)]), none))
    ∧ ((fetch_single_jwt_token a (.response 200 (.ok j) t)).1.isSome = true
        ↔ ∃ v, tokenStrOf j = some v ∧ v.truthy = true)
    ∧ ((∀ v, tokenStrOf j = some v → v.truthy = false) →
        fetch_single_jwt_token a (.response 200 (.ok j) t)
          = (none, some ("Token key/format invalid: " ++ (Json.pyRepr j).take 100)))
    ∧ (status ≠ 200 →
        fetch_single_jwt_token a (.response status (.ok j) t)
          = (none, some ("API failed (Status: " ++ toString status ++ ")"))) := by
  refine ⟨?_, ?_, ?_, ?_⟩
  · intro v hv ht
    simp [fetch_single_jwt_token, h, hv, ht]
  · cases hv : tokenStrOf j with
    | none => simp [fetch_single_jwt_token, h, hv]
    | some v =>
      by_cases ht : v.truthy = true
      · simp [fetch_single_jwt_token, h, hv, ht]
      · simp [fetch_single_jwt_token, h, hv, ht]
  · intro hall
    cases hv : tokenStrOf j with
    | none => simp [fetch_single_jwt_token, h, hv]
    | some v => simp [fetch_single_jwt_token, h, hv, hall v hv]
  · intro hs
    simp [fetch_single_jwt_token, h, hs]

/-- Witness for C8's amended statement: a truthy token value succeeds, a 500
status is reported with its code. -/
theorem fetch_200_classification_witness :
    fetch_single_jwt_token ⟨some "u2", some "p2"⟩
        (.response 200 (.ok (.obj [("token", .str "tok")])) "")
      = (some (.obj [("token", .str "tok")]), none)
    ∧ fetch_single_jwt_token ⟨some "u2", some "p2"⟩
        (.response 500 (.ok (.obj [("token", .str "tok")])) "")
      = (none, some ("API failed (Status: " ++ toString 500 ++ ")")) :=
  ⟨(fetch_200_classification ⟨some "u2", some "p2"⟩ (by decide) 500
      (.obj [("token", .str "tok")]) "").1 _ rfl rfl,
   (fetch_200_classification ⟨some "u2", some "p2"⟩ (by decide) 500
      (.obj [("token", .str "tok")]) "").2.2.2 (by decide)⟩

/-- C9: a 200 response in the required shape whose `token` value is falsy
(for example the empty string) is counted as a failure with the
`"Token key/format invalid"` reason instead of producing a token. -/
theorem falsy_token_is_failure (a : Account) (j v : Json) (t : String)
    (h : a.bothFields = true) (hv : tokenStrOf j = some v) (hf : v.truthy = false) :
    fetch_single_jwt_token a (.response 200 (.ok j) t)
      = (none, some ("Token key/format invalid: " ++ (Json.pyRepr j).take 100)) := by
  simp [fetch_single_jwt_token, h, hv, hf]

/-- Witness for C9 at the body `{"token": ""}`. -/
theorem falsy_token_is_failure_witness :
    fetch_single_jwt_token ⟨some "u3", some "p3"⟩
        (.response 200 (.ok (.obj [("token", .str "")])) "")
      = (none, some ("Token key/format invalid: "
          ++ (Json.pyRepr (.obj [("token", .str "")])).take 100)) :=
  falsy_token_is_failure ⟨some "u3", some "p3"⟩ (.obj [("token", .str "")]) (.str "") ""
    (by decide) rfl rfl

/-- C1 (counterexample): a first response with non-200 status whose JSON body
has an `error` field equal to the claimed sentinel message
"could not retrieve required upstream state" issues zero reissues — only one
like request is made — because the code compares against a different sentinel
string. -/
theorem dispatch_claimed_sentinel_counterexample :
    (Json.obj [("error", .str "could not retrieve required upstream state")]).getField
        "error" = some (.str "could not retrieve required upstream state")
    ∧ (500 : Nat) ≠ 200
    ∧ likeRequestCount (dispatchTarget "42"
        (.response 500
          (.ok (.obj [("error", .str "could not retrieve required upstream state")])) "b")
        (.response 200 (.ok .null) "ok")).1 = 1 :=
  ⟨rfl, by decide, rfl⟩

/-- C1 (amended): for every target, the request is reissued exactly once if
and only if the first response has non-200 status and its body parses as JSON
with an `error` field equal to the sentinel message
"Failed to retrieve initial player info.", with a 120-second wait before the
reissue; every other first-response shape (exception, 200 status, different
error text, non-JSON body) issues zero reissues. -/
theorem dispatch_retry_policy (uid : String) (first retry : ReqOutcome) :
    (likeRequestCount (dispatchTarget uid first retry).1
        = if retryTrigger first then 2 else 1)
    ∧ (retryTrigger first = true
        ↔ ∃ status j text, first = .response status (.ok j) text
            ∧ status ≠ 200 ∧ j.getField "error" = some (.str sentinelError))
    ∧ (retryTrigger first = true →
        (dispatchTarget uid first retry).1
          = [.likeRequest uid, .send (retryWarnText uid), .sleep 120, .likeRequest uid]) := by
  refine ⟨?_, ?_, ?_⟩
  · cases first with
    | exn e => simp [dispatchTarget, retryTrigger, likeRequestCount]
    | response status body text =>
      by_cases ht : retryTrigger (.response status body text) = true
      · cases retry <;> simp [dispatchTarget, ht, likeRequestCount]
      · simp [dispatchTarget, ht, likeRequestCount]
  · constructor
    · intro ht
      cases first with
      | exn e => simp [retryTrigger] at ht
      | response status body text =>
        cases body with
        | error m => simp [retryTrigger] at ht
        | ok j =>
          simp only [retryTrigger, Bool.and_eq_true, bne_iff_ne, ne_eq] at ht
          obtain ⟨hs, hm⟩ := ht
          refine ⟨status, j, text, rfl, hs, ?_⟩
          rcases hv : j.getField "error" with _ | v
          · rw [hv] at hm
            simp at hm
          · rw [hv] at hm
            cases v with
            | str s =>
              simp only [decide_eq_true_eq] at hm
              rw [hm]
            | null => simp at hm
            | bool b => simp at hm
            | num n => simp at hm
            | arr xs => simp at hm
            | obj fs => simp at hm
    · rintro ⟨status, j, text, rfl, hs, he⟩
      simp [retryTrigger, he, hs]
  · intro ht
    cases first with
    | exn e => simp [retryTrigger] at ht
    | response status body text =>
      cases retry <;> simp [dispatchTarget, ht]

/-- Witness for C1's amended statement: a sentinel-matching first response is
reissued once after a 120-second wait; a timeout issues zero reissues. -/
theorem dispatch_retry_policy_witness :
    likeRequestCount (dispatchTarget "7"
        (.response 500 (.ok (.obj [("error", .str "Failed to retrieve initial player info.")])) "b")
        (.response 200 (.ok .null) "ok")).1 = 2
    ∧ (dispatchTarget "7"
        (.response 500 (.ok (.obj [("error", .str "Failed to retrieve initial player info.")])) "b")
        (.response 200 (.ok .null) "ok")).1
      = [.likeRequest "7", .send (retryWarnText "7"), .sleep 120, .likeRequest "7"]
    ∧ likeRequestCount (dispatchTarget "7" (.exn "timeout") (.response 200 (.ok .null) "ok")).1
      = 1 := by
  have h1 := dispatch_retry_policy "7"
    (.response 500 (.ok (.obj [("error", .str "Failed to retrieve initial player info.")])) "b")
    (.response 200 (.ok .null) "ok")
  have h2 := dispatch_retry_policy "7" (.exn "timeout") (.response 200 (.ok .null) "ok")
  exact ⟨h1.1.trans (by rfl), h1.2.2 rfl, h2.1.trans (by rfl)⟩

/-- C10: when the retry triggers and the reissued request itself raises, the
exception is swallowed: the emitted events are unchanged, and the target's
success flag and recorded response text come from the original first
response (hence, since the trigger requires non-200, the target is a
failure, not a newly recorded one). -/
theorem retry_exception_swallowed (uid e : String) (status : Nat)
    (body : Except String Json) (text : String)
    (ht : retryTrigger (.response status body text) = true) :
    (dispatchTarget uid (.response status body text) (.exn e)).2.1 = (status == 200)
    ∧ (dispatchTarget uid (.response status body text) (.exn e)).2.1 = false
    ∧ (dispatchTarget uid (.response status body text) (.exn e)).2.2 = text
    ∧ (dispatchTarget uid (.response status body text) (.exn e)).1
      = [.likeRequest uid, .send (retryWarnText uid), .sleep 120, .likeRequest uid] := by
  have hs : status ≠ 200 := by
    cases body with
    | error m => simp [retryTrigger] at ht
    | ok j =>
      simp only [retryTrigger, Bool.and_eq_true, bne_iff_ne, ne_eq] at ht
      exact ht.1
  refine ⟨by simp [dispatchTarget, ht], ?_, by simp [dispatchTarget, ht],
    by simp [dispatchTarget, ht]⟩
  simp [dispatchTarget, ht, hs]

/-- Witness for C10 at a concrete sentinel-matching first response whose
retry times out. -/
theorem retry_exception_swallowed_witness :
    (dispatchTarget "9"
        (.response 502 (.ok (.obj [("error", .str "Failed to retrieve initial player info.")])) "t1")
        (.exn "ReadTimeout")).2.1 = ((502 : Nat) == 200)
    ∧ (dispatchTarget "9"
        (.response 502 (.ok (.obj [("error", .str "Failed to retrieve initial player info.")])) "t1")
        (.exn "ReadTimeout")).2.1 = false
    ∧ (dispatchTarget "9"
        (.response 502 (.ok (.obj [("error", .str "Failed to retrieve initial player info.")])) "t1")
        (.exn "ReadTimeout")).2.2 = "t1"
    ∧ (dispatchTarget "9"
        (.response 502 (.ok (.obj [("error", .str "Failed to retrieve initial player info.")])) "t1")
        (.exn "ReadTimeout")).1
      = [.likeRequest "9", .send (retryWarnText "9"), .sleep 120, .likeRequest "9"] :=
  retry_exception_swallowed "9" "ReadTimeout" 502
    (.ok (.obj [("error", .str "Failed to retrieve initial player info.")])) "t1" rfl

lemma hexVal_hexDig : ∀ n : Nat, n < 16 → hexVal (hexDig n) = n := by decide

lemma decodeEsc_enc (c : Char) (rest : List Char) :
    decodeEsc (encChar c ++ rest) = some (c, rest) := by
  by_cases h1 : c = '"'
  · simp [encChar, decodeEsc, h1]
  by_cases h2 : c = '\\'
  · simp [encChar, decodeEsc, h1, h2]
  by_cases h3 : c = '\n'
  · simp [encChar, decodeEsc, h1, h2, h3]
  by_cases h4 : c = '\r'
  · simp [encChar, decodeEsc, h1, h2, h3, h4]
  by_cases h5 : c = '\t'
  · simp [encChar, decodeEsc, h1, h2, h3, h4, h5]
  by_cases h6 : c = '\x08'
  · simp [encChar, decodeEsc, h1, h2, h3, h4, h5, h6]
  by_cases h7 : c = '\x0c'
  · simp [encChar, decodeEsc, h1, h2, h3, h4, h5, h6, h7]
  by_cases h8 : c.toNat < 32
  · have hd : c.toNat / 16 < 16 := by omega
    have hm : c.toNat % 16 < 16 := Nat.mod_lt _ (by norm_num)
    have harith : hexVal '0' * 4096 + hexVal '0' * 256
        + hexVal (hexDig (c.toNat / 16)) * 16 + hexVal (hexDig (c.toNat % 16))
        = c.toNat := by
      rw [hexVal_hexDig _ hd, hexVal_hexDig _ hm]
      have : hexVal '0' = 0 := by decide
      rw [this]
      omega
    simp [encChar, decodeEsc, h1, h2, h3, h4, h5, h6, h7, h8, harith, Char.ofNat_toNat]
  · simp [encChar, decodeEsc, h1, h2, h3, h4, h5, h6, h7, h8]

lemma escL_cancel : ∀ (a b r s : List Char),
    escL a ++ '"' :: r = escL b ++ '"' :: s → a = b ∧ r = s := by
  intro a
  induction a with
  | nil =>
    intro b r s h
    cases b with
    | nil => simpa [escL] using h
    | cons d bs =>
      exfalso
      have hd := congrArg decodeEsc h
      rw [show escL (d :: bs) ++ '"' :: s = encChar d ++ (escL bs ++ '"' :: s) by
        simp [escL]] at hd
      rw [decodeEsc_enc] at hd
      simp [escL, decodeEsc] at hd
  | cons c as ih =>
    intro b r s h
    cases b with
    | nil =>
      exfalso
      have hd := congrArg decodeEsc h
      rw [show escL (c :: as) ++ '"' :: r = encChar c ++ (escL as ++ '"' :: r) by
        simp [escL]] at hd
      rw [decodeEsc_enc] at hd
      simp [escL, decodeEsc] at hd
    | cons d bs =>
      have h' : encChar c ++ (escL as ++ '"' :: r) = encChar d ++ (escL bs ++ '"' :: s) := by
        simpa [escL, List.append_assoc] using h
      have hd := congrArg decodeEsc h'
      rw [decodeEsc_enc, decodeEsc_enc] at hd
      obtain ⟨hcd, htail⟩ : c = d ∧ escL as ++ '"' :: r = escL bs ++ '"' :: s := by
        simpa using hd
      obtain ⟨h9, h10⟩ := ih bs r s htail
      exact ⟨by rw [hcd, h9], h10⟩

lemma dumpsItems_tokens : ∀ ts : List String,
    dumpsItems (ts.map fun s => .obj [("token", .str s)]) 4
      = tokenItems (ts.map String.data) := by
  intro ts
  induction ts with
  | nil => rfl
  | cons s rest ih =>
    cases rest with
    | nil =>
      simp only [List.map, dumpsItems, dumpsL, dumpsFields, tokenItems, blockHead,
        blockTail, pad]
      simp [escL, encChar, List.append_assoc]
    | cons t rest2 =>
      simp only [List.map] at ih ⊢
      simp only [dumpsItems, dumpsL, dumpsFields, tokenItems, blockHead, blockTail, pad, ih]
      simp [escL, encChar, List.append_assoc]

lemma tokenItems_cancel : ∀ a b : List (List Char),
    tokenItems a = tokenItems b → a = b := by
  intro a
  induction a with
  | nil =>
    intro b h
    cases b with
    | nil => rfl
    | cons s bs =>
      exfalso
      cases bs <;> simp [tokenItems, blockHead] at h
  | cons s as ih =>
    intro b h
    cases b with
    | nil =>
      exfalso
      cases as <;> simp [tokenItems, blockHead] at h
    | cons t bs =>
      have hstrip : (escL s ++ '"' :: (blockTail ++ tailOf as))
          = (escL t ++ '"' :: (blockTail ++ tailOf bs)) := by
        cases as <;> cases bs <;>
          simpa [tokenItems, tailOf, List.append_assoc] using List.append_cancel_left h
      obtain ⟨hst, htail⟩ := escL_cancel _ _ _ _ hstrip
      have htail2 := List.append_cancel_left htail
      cases as with
      | nil =>
        cases bs with
        | nil => rw [hst]
        | cons u bs2 => simp [tailOf] at htail2
      | cons u as2 =>
        cases bs with
        | nil => simp [tailOf] at htail2
        | cons v bs2 =>
          simp only [tailOf, List.cons.injEq] at htail2
          rw [hst, ih (v :: bs2) htail2.2.2]

lemma dumpsL_tokenArr_cons (a : String) (as : List String) :
    dumpsL (tokenArr (a :: as)) 0
      = '[' :: '\n' :: (tokenItems ((a :: as).map String.data) ++ ['\n', ']']) := by
  have h := dumpsItems_tokens (a :: as)
  simp only [tokenArr, List.map] at h ⊢
  simp only [dumpsL, pad, List.replicate, h]
  simp

lemma map_data_cancel : ∀ u v : List String,
    u.map String.data = v.map String.data → u = v := by
  intro u
  induction u with
  | nil =>
    intro v h
    cases v with
    | nil => rfl
    | cons b v2 => simp at h
  | cons a u2 ih =>
    intro v h
    cases v with
    | nil => simp at h
    | cons b v2 =>
      simp only [List.map, List.cons.injEq] at h
      have hab : a = b := by
        cases a
        cases b
        exact congrArg String.mk h.1
      rw [hab, ih v2 h.2]

/-- The token-set serialization is injective: distinct token sets always
produce byte-distinct file contents. -/
theorem dumpsTokens_injective (ts1 ts2 : List String)
    (h : dumpsTokens ts1 = dumpsTokens ts2) : ts1 = ts2 := by
  have hd : dumpsL (tokenArr ts1) 0 = dumpsL (tokenArr ts2) 0 := by
    simp only [dumpsTokens, dumps] at h
    injection h
  cases ts1 with
  | nil =>
    cases ts2 with
    | nil => rfl
    | cons b bs =>
      rw [dumpsL_tokenArr_cons] at hd
      simp [tokenArr, dumpsL] at hd
  | cons a as =>
    cases ts2 with
    | nil =>
      rw [dumpsL_tokenArr_cons] at hd
      simp [tokenArr, dumpsL] at hd
    | cons b bs =>
      rw [dumpsL_tokenArr_cons, dumpsL_tokenArr_cons] at hd
      simp only [List.cons.injEq, true_and] at hd
      have h2 := List.append_cancel_right hd
      exact map_data_cancel _ _ (tokenItems_cancel _ _ h2)

/-- C4: the publish stage reads the current remote content and returns
CREATED after a create call when the file is absent, UNCHANGED with no write
issued when the existing content is byte-equal to the new serialization, and
UPDATED after a version-checked update call when it differs; hence publishing
the same token set twice in a row yields CREATED then UNCHANGED, and
publishing a different token set afterwards yields UPDATED. -/
theorem publish_conditional_write (f : RemoteFile) (c sha sha1 sha2 sha3 : String)
    (ts ts' : List String) (hne : ts' ≠ ts) :
    publish none c sha = (.created, some ⟨c, sha⟩, [.githubRead, .githubCreate c])
    ∧ (f.content = c → publish (some f) c sha = (.unchanged, some f, [.githubRead]))
    ∧ (f.content ≠ c →
        publish (some f) c sha
          = (.updated, some ⟨c, sha⟩, [.githubRead, .githubUpdate c f.sha]))
    ∧ ((publish none (dumpsTokens ts) sha1).1 = .created
        ∧ (publish (publish none (dumpsTokens ts) sha1).2.1 (dumpsTokens ts) sha2).1
            = .unchanged
        ∧ (publish (publish none (dumpsTokens ts) sha1).2.1 (dumpsTokens ts) sha2).2.2
            = [.githubRead]
        ∧ (publish (publish (publish none (dumpsTokens ts) sha1).2.1
              (dumpsTokens ts) sha2).2.1 (dumpsTokens ts') sha3).1 = .updated) := by
  refine ⟨rfl, ?_, ?_, ?_, ?_, ?_, ?_⟩
  · intro he
    simp [publish, he]
  · intro he
    simp [publish, he]
  · rfl
  · simp [publish]
  · simp [publish]
  · simp only [publish]
    have hne2 : dumpsTokens ts ≠ dumpsTokens ts' := fun he =>
      hne (dumpsTokens_injective ts' ts he.symm)
    simp [hne2]

/-- Witness for C4 at concrete token sets `["a"]` and `["b"]` and a concrete
pre-existing file. -/
theorem publish_conditional_write_witness :
    publish none "x" "s2"
      = (.created, some ⟨"x", "s2"⟩, [.githubRead, .githubCreate "x"])
    ∧ publish (some ⟨"x", "s1"⟩) "x" "s2" = (.unchanged, some ⟨"x", "s1"⟩, [.githubRead])
    ∧ publish (some ⟨"y", "s1"⟩) "x" "s2"
      = (.updated, some ⟨"x", "s2"⟩, [.githubRead, .githubUpdate "x" "s1"])
    ∧ ((publish none (dumpsTokens ["a"]) "s3").1 = .created
        ∧ (publish (publish none (dumpsTokens ["a"]) "s3").2.1
            (dumpsTokens ["a"]) "s4").1 = .unchanged
        ∧ (publish (publish none (dumpsTokens ["a"]) "s3").2.1
            (dumpsTokens ["a"]) "s4").2.2 = [.githubRead]
        ∧ (publish (publish (publish none (dumpsTokens ["a"]) "s3").2.1
            (dumpsTokens ["a"]) "s4").2.1 (dumpsTokens ["b"]) "s5").1 = .updated) := by
  have h1 := publish_conditional_write ⟨"x", "s1"⟩ "x" "s2" "s3" "s4" "s5" ["a"] ["b"]
    (by decide)
  have h2 := publish_conditional_write ⟨"y", "s1"⟩ "x" "s2" "s3" "s4" "s5" ["a"] ["b"]
    (by decide)
  exact ⟨h1.1, h1.2.1 rfl, h2.2.2.1 (by decide), h1.2.2.2⟩

lemma getLast_concat_send (l : List Event) (t : String) :
    (l ++ [Event.send t]).getLast? = some (.send t) := by
  simp [List.getLast?_concat]

lemma getLast_cons_or (x : Event) (l : List Event) :
    (x :: l).getLast? = l.getLast?.or (some x) := by
  have h : ([x] ++ l).getLast? = l.getLast?.or ([x].getLast?) := List.getLast?_append
  simpa using h

/-- C2: every pipeline run on a non-empty configuration — full completion,
abort on missing credentials, abort on zero tokens, abort on publish failure,
and the unhandled-exception path — ends its event trace with a sent report
message, and on each path that final message is the path's outcome report. -/
theorem pipeline_emits_outcome (cfg : Config) (env : PipelineEnv) :
    (∃ text, (run_task_logic (some cfg) env).1.getLast? = some (.send text))
    ∧ ((run_task_logic (some cfg) env).2 = .noCreds →
        (run_task_logic (some cfg) env).1.getLast?
          = some (.send "❌ Guest Accounts not set. Task cancelled."))
    ∧ ((run_task_logic (some cfg) env).2 = .noTokens →
        (run_task_logic (some cfg) env).1.getLast?
          = some (.send "❌ No tokens generated. Task cancelled."))
    ∧ ((run_task_logic (some cfg) env).2 = .publishFailed →
        ∃ e, (run_task_logic (some cfg) env).1.getLast?
          = some (.send ("❌ <b>Step 2/3 Error:</b> GitHub update failed: " ++ e)))
    ∧ ((run_task_logic (some cfg) env).2 = .unexpected →
        ∃ e, (run_task_logic (some cfg) env).1.getLast?
          = some (.send (unexpectedFailureText e)))
    ∧ ((run_task_logic (some cfg) env).2 = .completed →
        ∃ s, (run_task_logic (some cfg) env).1.getLast?
          = some (.send ("🎉 <b>Task Complete!</b>\nJWTs: " ++ s))) := by
  by_cases hga : cfg.guest_accounts.isEmpty
  · simp [run_task_logic, hga, getLast_cons_or, List.getLast?_append]
  · cases hjwt : cfg.jwt_api with
    | none => simp [run_task_logic, hga, hjwt, getLast_cons_or, List.getLast?_append]
    | some japi =>
      by_cases htok : (fetch_jwt_concurrently env.fetch cfg.guest_accounts
          env.completedOrder).tokens_list.isEmpty
      · simp [run_task_logic, hga, hjwt, htok, getLast_cons_or, List.getLast?_append]
      · cases hgh : (github_update_step env.github
            (dumps (.arr (fetch_jwt_concurrently env.fetch cfg.guest_accounts
              env.completedOrder).tokens_list))).2.2 with
        | some e =>
          simp [run_task_logic, hga, hjwt, htok, hgh, getLast_cons_or, List.getLast?_append]
        | none =>
          cases hlike : cfg.like_api with
          | none =>
            simp [run_task_logic, hga, hjwt, htok, hgh, hlike, getLast_cons_or,
              List.getLast?_append]
          | some lapi =>
            simp [run_task_logic, hga, hjwt, htok, hgh, hlike, getLast_cons_or,
              List.getLast?_append, String.append_assoc]

lemma acquire_events_shape (f : Account → Option Json × Option String)
    (accs ord : List Account) (e : Event) (he : e ∈ acquireStageEvents f accs ord) :
    (∃ t, e = .send t) ∨ (∃ t, e = .editMsg t) := by
  simp only [acquireStageEvents, List.mem_append, List.mem_singleton, List.mem_filterMap,
    List.mem_range] at he
  rcases he with ((he | ⟨k, hk, he⟩) | he) | he
  · exact Or.inl ⟨_, he⟩
  · split at he
    · exact Or.inr ⟨_, (Option.some.inj he).symm⟩
    · simp at he
  · exact Or.inr ⟨_, he⟩
  · split at he
    · simp only [List.mem_singleton] at he
      exact Or.inl ⟨_, he⟩
    · simp at he

lemma github_events_shape (genv : GithubEnv) (c : String) (e : Event)
    (he : e ∈ (github_update_step genv c).1) :
    e = .githubRead ∨ (∃ t, e = .githubCreate t) ∨ (∃ t s, e = .githubUpdate t s) := by
  rcases genv with ⟨read, cr, ur⟩
  cases read with
  | readRaise m => simp [github_update_step] at he
  | missing =>
    cases cr <;> simp [github_update_step] at he <;>
      rcases he with he | he <;> simp [he]
  | found fo =>
    by_cases hne : fo.content ≠ c
    · cases ur <;> simp [github_update_step, hne] at he <;>
        rcases he with he | he <;> simp [he]
    · simp [github_update_step, hne] at he
      simp [he]

/-- C5: whenever the configuration has no credentials, or the
token-acquisition stage returns an empty token set, or the publish stage
fails, the run issues zero dispatch requests and never reaches the 60-second
post-publish wait. -/
theorem abort_skips_dispatch (cfg : Config) (env : PipelineEnv)
    (h : cfg.guest_accounts = []
       ∨ (fetch_jwt_concurrently env.fetch cfg.guest_accounts
            env.completedOrder).tokens_list = []
       ∨ (github_update_step env.github (dumps (.arr (fetch_jwt_concurrently env.fetch
            cfg.guest_accounts env.completedOrder).tokens_list))).2.2.isSome = true) :
    likeRequestCount (run_task_logic (some cfg) env).1 = 0
    ∧ Event.sleep 60 ∉ (run_task_logic (some cfg) env).1 := by
  have hbenign : ∀ e ∈ (run_task_logic (some cfg) env).1,
      (∀ u, e ≠ Event.likeRequest u) ∧ e ≠ Event.sleep 60 := by
    intro e he
    by_cases hga : cfg.guest_accounts.isEmpty
    · simp only [run_task_logic, hga, if_true, List.cons_append, List.nil_append,
        List.mem_cons, List.mem_singleton, List.mem_nil_iff, or_false] at he
      rcases he with rfl | rfl <;> exact ⟨fun u => by simp, by simp⟩
    · cases hjwt : cfg.jwt_api with
      | none =>
        simp only [run_task_logic, hga, hjwt, Bool.false_eq_true, if_false,
          List.cons_append, List.nil_append, List.mem_cons, List.mem_singleton, List.mem_nil_iff, or_false] at he
        rcases he with rfl | rfl <;> exact ⟨fun u => by simp, by simp⟩
      | some japi =>
        by_cases htok : (fetch_jwt_concurrently env.fetch cfg.guest_accounts
            env.completedOrder).tokens_list.isEmpty
        · simp only [run_task_logic, hga, hjwt, htok, Bool.false_eq_true, if_false,
            if_true, List.cons_append, List.nil_append, List.append_assoc,
            List.mem_cons, List.mem_append, List.mem_singleton, List.mem_nil_iff, or_false] at he
          rcases he with rfl | he | rfl | rfl
          · exact ⟨fun u => by simp, by simp⟩
          · rcases acquire_events_shape _ _ _ _ he with ⟨t, rfl⟩ | ⟨t, rfl⟩ <;>
              exact ⟨fun u => by simp, by simp⟩
          · exact ⟨fun u => by simp, by simp⟩
          · exact ⟨fun u => by simp, by simp⟩
        · have hguest : cfg.guest_accounts ≠ [] := fun hc => by
            rw [hc] at hga
            exact hga rfl
          have htokne : (fetch_jwt_concurrently env.fetch cfg.guest_accounts
              env.completedOrder).tokens_list ≠ [] := fun hc => by
            rw [hc] at htok
            exact htok rfl
          rcases h with h | h | h
          · exact absurd h hguest
          · exact absurd h htokne
          · rcases Option.isSome_iff_exists.mp h with ⟨msg, hgh⟩
            simp only [run_task_logic, hga, hjwt, htok, hgh, Bool.false_eq_true, if_false,
              List.cons_append, List.nil_append, List.append_assoc,
              List.mem_cons, List.mem_append, List.mem_singleton, List.mem_nil_iff, or_false] at he
            rcases he with rfl | he | rfl | rfl | he | rfl
            · exact ⟨fun u => by simp, by simp⟩
            · rcases acquire_events_shape _ _ _ _ he with ⟨t, rfl⟩ | ⟨t, rfl⟩ <;>
                exact ⟨fun u => by simp, by simp⟩
            · exact ⟨fun u => by simp, by simp⟩
            · exact ⟨fun u => by simp, by simp⟩
            · rcases github_events_shape _ _ _ he with rfl | ⟨t, rfl⟩ | ⟨t, s, rfl⟩ <;>
                exact ⟨fun u => by simp, by simp⟩
            · exact ⟨fun u => by simp, by simp⟩
  constructor
  · rw [likeRequestCount, List.countP_eq_zero]
    intro e he
    have hb := hbenign e he
    cases e with
    | likeRequest u => exact absurd rfl (hb.1 u)
    | send t => simp
    | editMsg t => simp
    | sleep n => simp
    | githubRead => simp
    | githubCreate t => simp
    | githubUpdate t s => simp
  · intro hmem
    exact (hbenign _ hmem).2 rfl

/-- Witness for C2 on two concrete runs: the missing-credentials path and the
zero-tokens path each end with their report message. -/
theorem pipeline_emits_outcome_witness :
    (run_task_logic (some ⟨[], some "j", some "l", []⟩) envW).1.getLast?
      = some (.send "❌ Guest Accounts not set. Task cancelled.")
    ∧ (run_task_logic (some ⟨[⟨some "u", some "p"⟩], some "j", some "l", []⟩) envW).1.getLast?
      = some (.send "❌ No tokens generated. Task cancelled.") :=
  ⟨(pipeline_emits_outcome ⟨[], some "j", some "l", []⟩ envW).2.1 rfl,
   (pipeline_emits_outcome ⟨[⟨some "u", some "p"⟩], some "j", some "l", []⟩ envW).2.2.1 rfl⟩

/-- Witness for C5 on a concrete run with no credentials and a non-empty
target list. -/
theorem abort_skips_dispatch_witness :
    likeRequestCount (run_task_logic (some ⟨[], some "j", some "l", ["7"]⟩) envW).1 = 0
    ∧ Event.sleep 60 ∉ (run_task_logic (some ⟨[], some "j", some "l", ["7"]⟩) envW).1 :=
  abort_skips_dispatch ⟨[], some "j", some "l", ["7"]⟩ envW (Or.inl rfl)

lemma sched_count_le_one (configComplete : Nat → Bool) (ops : List SchedOp) (chat : Nat) :
    ∀ s : SchedulerState, s.threads.count chat ≤ 1 →
      (applySchedOps configComplete s ops).threads.count chat ≤ 1 := by
  induction ops with
  | nil => exact fun s hs => hs
  | cons op rest ih =>
    intro s hs
    cases op with
    | start c =>
      simp only [applySchedOps]
      apply ih
      unfold start_liker_task
      by_cases h1 : configComplete c
      · by_cases h2 : c ∈ s.threads
        · simpa [h1, h2] using hs
        · simp only [h1, h2, not_true, if_false, ite_false, if_true, not_false_iff,
            ite_true]
          by_cases h3 : c = chat
          · subst h3
            have h0 : s.threads.count c = 0 := List.count_eq_zero.mpr h2
            simp [List.count_cons, h0]
          · simpa [List.count_cons, h3] using hs
      · simpa [h1] using hs
    | stop c =>
      simp only [applySchedOps]
      apply ih
      unfold stop_liker_task
      by_cases h2 : c ∈ s.threads
      · simp only [h2, if_true, ite_true]
        calc (s.threads.filter (fun x => x != c)).count chat
            ≤ s.threads.count chat := (List.filter_sublist s.threads).count_le chat
          _ ≤ 1 := hs
      · simpa [h2] using hs

/-- C7: `start` on a session with an existing SessionRuntime fails as a
no-op — same state, no new spawn; from an empty registry, any sequence of
start/stop operations leaves at most one runtime per session; and after
`stop` removes the runtime, an immediate `start` succeeds and spawns a new
background execution. -/
theorem scheduler_exclusive (configComplete : Nat → Bool) (s : SchedulerState)
    (chat : Nat) (ops : List SchedOp) (hc : configComplete chat = true) :
    (chat ∈ s.threads → start_liker_task configComplete s chat = (s, .alreadyRunning))
    ∧ (applySchedOps configComplete ⟨[], []⟩ ops).threads.count chat ≤ 1
    ∧ (stop_liker_task s chat).1.threads.count chat = 0
    ∧ (start_liker_task configComplete (stop_liker_task s chat).1 chat).2 = .started
    ∧ chat ∈ (start_liker_task configComplete (stop_liker_task s chat).1 chat).1.threads
    ∧ (start_liker_task configComplete (stop_liker_task s chat).1 chat).1.spawned
        = (stop_liker_task s chat).1.spawned ++ [chat] := by
  have hnot : chat ∉ (stop_liker_task s chat).1.threads := by
    unfold stop_liker_task
    by_cases h2 : chat ∈ s.threads
    · simp [h2, List.mem_filter]
    · simp [h2]
  refine ⟨?_, ?_, ?_, ?_, ?_, ?_⟩
  · intro hmem
    simp [start_liker_task, hc, hmem]
  · exact sched_count_le_one configComplete ops chat ⟨[], []⟩ (by simp)
  · exact List.count_eq_zero.mpr hnot
  · simp [start_liker_task, hc, hnot]
  · simp [start_liker_task, hc, hnot]
  · simp [start_liker_task, hc, hnot]

/-- Witness for C7 at a concrete registry holding session 5 and a concrete
operation sequence. -/
theorem scheduler_exclusive_witness :
    (5 ∈ (⟨[5], [5]⟩ : SchedulerState).threads →
        start_liker_task (fun _ => true) ⟨[5], [5]⟩ 5 = (⟨[5], [5]⟩, .alreadyRunning))
    ∧ (applySchedOps (fun _ => true) ⟨[], []⟩
        [.start 5, .start 5, .stop 5, .start 5]).threads.count 5 ≤ 1
    ∧ (stop_liker_task ⟨[5], [5]⟩ 5).1.threads.count 5 = 0
    ∧ (start_liker_task (fun _ => true) (stop_liker_task ⟨[5], [5]⟩ 5).1 5).2 = .started
    ∧ 5 ∈ (start_liker_task (fun _ => true) (stop_liker_task ⟨[5], [5]⟩ 5).1 5).1.threads
    ∧ (start_liker_task (fun _ => true) (stop_liker_task ⟨[5], [5]⟩ 5).1 5).1.spawned
        = (stop_liker_task ⟨[5], [5]⟩ 5).1.spawned ++ [5] :=
  scheduler_exclusive (fun _ => true) ⟨[5], [5]⟩ 5 [.start 5, .start 5, .stop 5, .start 5] rfl

end Bot
